import Mathlib

/-!
Verification of the blueapi control surface (`src/blueapi/service/main.py`)
and CLI (`src/blueapi/cli/cli.py`) against the natural-language spec.

The FastAPI endpoint handlers are shallowly embedded as pure Lean functions
over an explicit `Worker` state.  Operations of the worker object itself
(`blueapi.worker`, not part of the verified sources) are either modelled
from the spec (marked as such) or kept as opaque function parameters, so
that every theorem below is about the handler logic that actually appears
in the sources.
-/

/-- WorkerState: closed enumeration `{IDLE, RUNNING, PAUSED}` (spec §3,
`blueapi.worker.WorkerState` as used by `main.py`). -/
inductive WorkerState where
  | IDLE
  | RUNNING
  | PAUSED
deriving DecidableEq, Repr

/-- Task definition (`RunPlan`): an opaque name plus a key-value parameter
bag; parameter values are treated as opaque strings. -/
structure RunPlan where
  name : String
  params : List (String × String)
deriving DecidableEq, Repr

/-- TrackableTask record (spec §3): task_id, the task, completion flag and
error list. -/
structure TrackableTask where
  task_id : String
  task : RunPlan
  is_complete : Bool
  errors : List String
deriving DecidableEq, Repr

/-- Body of `PUT /worker/task` (`blueapi.service.model.WorkerTask`): an
optional task identifier. -/
structure WorkerTask where
  task_id : Option String
deriving DecidableEq, Repr

/-- Body of `PUT /worker/state` (`blueapi.service.model.StateChangeRequest`):
`{new_state, defer?}`, `defer` optional (spec §6). -/
structure StateChangeRequest where
  new_state : WorkerState
  defer : Option Bool
deriving DecidableEq, Repr

/-- Modelled from the spec: the worker object of `blueapi.worker` (not under
the verified sources).  It owns the current `WorkerState`, the at-most-one
active task reference, and the registry of submitted tasks (spec §2, §3);
`next_id` backs fresh task-identifier generation. -/
structure Worker where
  state : WorkerState
  active_task : Option TrackableTask
  tasks : List (String × TrackableTask)
  next_id : Nat
deriving DecidableEq, Repr

/-- Modelled from the spec: `TaskRegistry.submit` "generates a fresh
globally-unique identifier, stores a new TrackableTask with
`is_complete=false`, returns the identifier" (spec §4.1).  Freshness comes
from the strictly increasing counter. -/
def Worker.submit_task (w : Worker) (task : RunPlan) : String × Worker :=
  let task_id := "task-" ++ toString w.next_id
  (task_id,
    { w with
        tasks := w.tasks ++ [(task_id, TrackableTask.mk task_id task false [])],
        next_id := w.next_id + 1 })

/-- Modelled from the spec: `get(task_id) -> TrackableTask | not-found`,
a pure lookup that never throws (spec §4.1). -/
def Worker.get_pending_task (w : Worker) (task_id : String) :
    Option TrackableTask :=
  (w.tasks.find? (fun p => p.fst == task_id)).map Prod.snd

/-- Modelled from the spec: `get_active_task() -> TrackableTask | None`
(spec §4.3). -/
def Worker.get_active_task (w : Worker) : Option TrackableTask :=
  w.active_task

/-- A call made by the handler layer into the worker/engine: the underlying
engine operations pause (with the forwarded `defer` flag) and resume, and
`begin_task` on a task identifier. -/
inductive EngineCall where
  | pause (defer : Option Bool)
  | resume
  | begin_task (task_id : String)
deriving DecidableEq, Repr

/-- The engine's (opaque, asynchronous) effect on the observable
`WorkerState` by the time the handler reads the state back: `pause` and
`resume` may or may not have been reported yet (spec §4.3, §5). -/
structure EngineOps where
  pauseEffect : Option Bool → WorkerState → WorkerState
  resumeEffect : WorkerState → WorkerState

/-- An engine that never reports the change before the handler returns:
the state cell is left as-is. -/
def EngineOps.lazyEngine : EngineOps :=
  { pauseEffect := fun _ s => s, resumeEffect := fun s => s }

/-- An engine that synchronously reports the requested state, as the test
suite's mocked state machine does (`tests/service/test_rest_api.py`). -/
def EngineOps.syncEngine : EngineOps :=
  { pauseEffect := fun _ _ => WorkerState.PAUSED,
    resumeEffect := fun _ => WorkerState.RUNNING }

/-- `_ALLOWED_TRANSITIONS` from `main.py`: map of current_state to allowed
new_states, `RUNNING -> {PAUSED}`, `PAUSED -> {RUNNING}`; IDLE is absent. -/
def ALLOWED_TRANSITIONS : List (WorkerState × List WorkerState) :=
  [(WorkerState.RUNNING, [WorkerState.PAUSED]),
   (WorkerState.PAUSED, [WorkerState.RUNNING])]

/-- `current_state in _ALLOWED_TRANSITIONS` (Python dict membership). -/
def inAllowedKeys (s : WorkerState) : Bool :=
  (ALLOWED_TRANSITIONS.find? (fun p => p.fst == s)).isSome

/-- `_ALLOWED_TRANSITIONS[current_state]` (Python dict index; `[]` when the
key is absent, unreachable after the membership test). -/
def allowedTargets (s : WorkerState) : List WorkerState :=
  ((ALLOWED_TRANSITIONS.find? (fun p => p.fst == s)).map Prod.snd).getD []

/-- Result of one call of the `PUT /worker/state` handler: HTTP status,
response body, worker state after the call, and the worker/engine calls
made during the call. -/
structure SetStateResult where
  status : Nat
  body : WorkerState
  worker : Worker
  calls : List EngineCall
deriving Repr

/-- `set_state` from `main.py`: reads `current_state`, validates the
requested transition against `_ALLOWED_TRANSITIONS`, on success sets 202
and invokes `worker.pause(defer=...)` or `worker.resume()`, and always
returns `handler.worker.state` as read after the attempt; the decorator
default status is 400. -/
def set_state (ops : EngineOps) (state_change_request : StateChangeRequest)
    (w : Worker) : SetStateResult :=
  let current_state := w.state
  let new_state := state_change_request.new_state
  if inAllowedKeys current_state && (allowedTargets current_state).contains new_state then
    if new_state == WorkerState.PAUSED then
      let w2 := { w with state := ops.pauseEffect state_change_request.defer w.state }
      { status := 202, body := w2.state, worker := w2,
        calls := [EngineCall.pause state_change_request.defer] }
    else if new_state == WorkerState.RUNNING then
      let w2 := { w with state := ops.resumeEffect w.state }
      { status := 202, body := w2.state, worker := w2,
        calls := [EngineCall.resume] }
    else
      { status := 202, body := w.state, worker := w, calls := [] }
  else
    { status := 400, body := w.state, worker := w, calls := [] }

/-- The (current_state, requested_state) pair is in the allowed-transition
table. -/
def pairAllowed (current new_state : WorkerState) : Bool :=
  inAllowedKeys current && (allowedTargets current).contains new_state

/-- Result of one call of the `PUT /worker/task` handler: HTTP status,
response body (absent on the 409 error path), worker after the call, and
the worker calls made. -/
structure UpdateTaskResult where
  status : Nat
  body : Option WorkerTask
  worker : Worker
  calls : List EngineCall
deriving Repr

/-- `update_task` from `main.py`: reads the active task; if one exists and
is not complete, raises 409 "Worker already active"; else if the request
carries a `task_id`, invokes `worker.begin_task(task_id)`; returns the
request body itself.  `beginImpl` is the (opaque, external) effect of
`Worker.begin_task` on the worker. -/
def update_task (beginImpl : String → Worker → Worker) (task : WorkerTask)
    (w : Worker) : UpdateTaskResult :=
  let active_task := w.get_active_task
  if (match active_task with
      | some t => !t.is_complete
      | none => false) then
    { status := 409, body := none, worker := w, calls := [] }
  else
    match task.task_id with
    | some task_id =>
        { status := 200, body := some task, worker := beginImpl task_id w,
          calls := [EngineCall.begin_task task_id] }
    | none =>
        { status := 200, body := some task, worker := w, calls := [] }

/-- Result of one call of the `POST /tasks` handler: HTTP status, the
`Location` response header, the `TaskResponse` body (its task_id), and the
worker after the call. -/
structure SubmitTaskResult where
  status : Nat
  location : String
  body_task_id : String
  worker : Worker
deriving Repr

/-- `submit_task` from `main.py`: submits the task to the worker, sets the
`Location` header to `f"{request.url}/{task_id}"`, and returns
`TaskResponse(task_id=task_id)` with status 201. -/
def submit_task (request_url : String) (task : RunPlan) (w : Worker) :
    SubmitTaskResult :=
  let r := w.submit_task task
  { status := 201,
    location := request_url ++ "/" ++ r.fst,
    body_task_id := r.fst,
    worker := r.snd }

/-- `get_task` from `main.py`: looks the task up via
`worker.get_pending_task`; 200 with the record when found, otherwise a 404
"Item not found". -/
def get_task (task_id : String) (w : Worker) : Except Nat TrackableTask :=
  match w.get_pending_task task_id with
  | some task => Except.ok task
  | none => Except.error 404

/-- A plan of the blueapi context: only its unique name matters to the
embedded handlers. -/
structure Plan where
  name : String
deriving DecidableEq, Repr

/-- `PlanModel` response schema; `from_plan` keeps the plan's name, as the
test suite observes (`test_get_plan_by_name`). -/
structure PlanModel where
  name : String
deriving DecidableEq, Repr

def PlanModel.from_plan (p : Plan) : PlanModel :=
  { name := p.name }

/-- A device of the blueapi context: only its unique name matters to the
embedded handlers. -/
structure Device where
  name : String
deriving DecidableEq, Repr

/-- `DeviceModel` response schema; `from_device` keeps the device's name
and its protocol list, as the test suite observes
(`test_get_device_by_name`). -/
structure DeviceModel where
  name : String
  protocols : List String
deriving DecidableEq, Repr

def DeviceModel.from_device (d : Device) : DeviceModel :=
  { name := d.name, protocols := ["HasName"] }

/-- Python dict lookup `m[name]`, over an association-list model of the
context's plan/device dictionaries. -/
def dictGet {α : Type} (m : List (String × α)) (name : String) : Option α :=
  (m.find? (fun p => p.fst == name)).map Prod.snd

/-- `get_plan_by_name` from `main.py`:
`PlanModel.from_plan(handler.context.plans[name])`, with `KeyError`
translated to a 404 "Item not found". -/
def get_plan_by_name (plans : List (String × Plan)) (name : String) :
    Except Nat PlanModel :=
  match dictGet plans name with
  | some plan => Except.ok (PlanModel.from_plan plan)
  | none => Except.error 404

/-- `get_device_by_name` from `main.py`:
`DeviceModel.from_device(handler.context.devices[name])`, with `KeyError`
translated to a 404 "Item not found". -/
def get_device_by_name (devices : List (String × Device)) (name : String) :
    Except Nat DeviceModel :=
  match dictGet devices name with
  | some device => Except.ok (DeviceModel.from_device device)
  | none => Except.error 404

/-- `get_state` from `main.py`: returns `handler.worker.state`; the pair
makes explicit that the handler leaves the worker untouched. -/
def get_state (w : Worker) : WorkerState × Worker :=
  (w.state, w)

/-- A Python exception at the CLI boundary: the caught
`requests.exceptions.ConnectionError`, or any other exception. -/
inductive PyError where
  | connectionError
  | other (msg : String)
deriving DecidableEq, Repr

/-- The message `check_connection` prints on a connection failure
(`cli.py`). -/
def connectionFailedMsg : String :=
  "Failed to establish connection to FastAPI server."

/-- Result of running a wrapped CLI command: final client-side state,
lines printed, and the exception escaping the call (if any). -/
structure CliResult (σ : Type) where
  state : σ
  printed : List String
  error : Option PyError
deriving Repr

/-- `check_connection` from `cli.py`: runs the wrapped function once; if it
raises `ConnectionError`, prints a message instead of propagating; any
other outcome (success or other exception) passes through.  The wrapped
command `func` is an opaque state transformer that may raise. -/
def check_connection {σ : Type} (func : σ → σ × List String × Option PyError)
    (s : σ) : CliResult σ :=
  let r := func s
  match r.snd.snd with
  | some PyError.connectionError =>
      { state := r.fst, printed := r.snd.fst ++ [connectionFailedMsg],
        error := none }
  | e =>
      { state := r.fst, printed := r.snd.fst, error := e }

/-- One observable step of the CLI `run` command (`run_plan` in `cli.py`):
the HTTP call creating the task, the completion-topic subscription, the
HTTP call signalling begin, a printed line, and the blocking wait for the
terminal message. -/
inductive CliEvent where
  | createTask (name : String) (params : String)
  | subscribe (task_id : String)
  | signalBegin (task_id : String)
  | printLine (line : String)
  | waitForComplete
deriving DecidableEq, Repr

/-- `run_plan` from `cli.py`, as the ordered trace of its observable
steps: create the task (the server answers with `task_id`), subscribe to
its completion topics, signal begin (the server answers with
`started_status`), print the begin response status, and block on
`wait_for_complete`. -/
def run_plan (name : String) (parameters : String) (task_id : String)
    (started_status : Nat) : List CliEvent :=
  [CliEvent.createTask name parameters,
   CliEvent.subscribe task_id,
   CliEvent.signalBegin task_id,
   CliEvent.printLine ("Response returned with " ++ toString started_status),
   CliEvent.waitForComplete]

/-- Index of the first event of the trace satisfying `p` (length when
absent). -/
def eventIdx (p : CliEvent → Bool) (tr : List CliEvent) : Nat :=
  tr.findIdx p

def isWait : CliEvent → Bool
  | CliEvent.waitForComplete => true
  | _ => false

def isPrint : CliEvent → Bool
  | CliEvent.printLine _ => true
  | _ => false

def isSubscribe : CliEvent → Bool
  | CliEvent.subscribe _ => true
  | _ => false

def isBegin : CliEvent → Bool
  | CliEvent.signalBegin _ => true
  | _ => false

def isCreate : CliEvent → Bool
  | CliEvent.createTask _ _ => true
  | _ => false

/-- The `update_task` conflict guard: an active task exists and is not
complete (`active_task is not None and not active_task.is_complete`). -/
def conflictActive (w : Worker) : Bool :=
  match w.get_active_task with
  | some t => !t.is_complete
  | none => false

/-- C1: for every (current_state, requested_state) pair not in the
allowed-transition table (in particular any request while IDLE),
`set_state` responds 400, leaves the worker (hence its WorkerState)
unchanged, returns the unchanged state as body, and never invokes the
engine's pause or resume operation. -/
theorem set_state_rejects_disallowed (ops : EngineOps)
    (req : StateChangeRequest) (w : Worker)
    (h : pairAllowed w.state req.new_state = false) :
    (set_state ops req w).status = 400 ∧
    (set_state ops req w).worker = w ∧
    (set_state ops req w).body = w.state ∧
    (set_state ops req w).calls = [] := by
  rcases req with ⟨ns, d⟩
  rcases w with ⟨s, a, t, n⟩
  cases s <;> cases ns <;>
    simp_all [set_state, pairAllowed, inAllowedKeys, allowedTargets,
      ALLOWED_TRANSITIONS]

/-- Witness for C1 at Scenario B: worker IDLE, request RUNNING. -/
theorem set_state_rejects_disallowed_witness :
    pairAllowed WorkerState.IDLE WorkerState.RUNNING = false ∧
    ((set_state EngineOps.lazyEngine
        (StateChangeRequest.mk WorkerState.RUNNING none)
        (Worker.mk WorkerState.IDLE none [] 0)).status = 400 ∧
     (set_state EngineOps.lazyEngine
        (StateChangeRequest.mk WorkerState.RUNNING none)
        (Worker.mk WorkerState.IDLE none [] 0)).worker =
          Worker.mk WorkerState.IDLE none [] 0 ∧
     (set_state EngineOps.lazyEngine
        (StateChangeRequest.mk WorkerState.RUNNING none)
        (Worker.mk WorkerState.IDLE none [] 0)).body = WorkerState.IDLE ∧
     (set_state EngineOps.lazyEngine
        (StateChangeRequest.mk WorkerState.RUNNING none)
        (Worker.mk WorkerState.IDLE none [] 0)).calls = []) :=
  ⟨by decide,
   set_state_rejects_disallowed EngineOps.lazyEngine
     (StateChangeRequest.mk WorkerState.RUNNING none)
     (Worker.mk WorkerState.IDLE none [] 0) (by decide)⟩

/-- C2: for every (current_state, requested_state) pair in the
allowed-transition table, `set_state` responds 202 and invokes exactly one
engine operation: pause with the request's `defer` flag passed through
unmodified when the requested state is PAUSED, resume when it is
RUNNING. -/
theorem set_state_accepts_allowed (ops : EngineOps)
    (req : StateChangeRequest) (w : Worker)
    (h : pairAllowed w.state req.new_state = true) :
    (set_state ops req w).status = 202 ∧
    (set_state ops req w).calls =
      (if req.new_state = WorkerState.PAUSED then [EngineCall.pause req.defer]
       else [EngineCall.resume]) := by
  rcases req with ⟨ns, d⟩
  rcases w with ⟨s, a, t, n⟩
  cases s <;> cases ns <;>
    simp_all [set_state, pairAllowed, inAllowedKeys, allowedTargets,
      ALLOWED_TRANSITIONS]

/-- Witness for C2 at Scenario C: worker RUNNING, request PAUSED with
`defer=true`. -/
theorem set_state_accepts_allowed_witness :
    pairAllowed WorkerState.RUNNING WorkerState.PAUSED = true ∧
    ((set_state EngineOps.syncEngine
        (StateChangeRequest.mk WorkerState.PAUSED (some true))
        (Worker.mk WorkerState.RUNNING none [] 0)).status = 202 ∧
     (set_state EngineOps.syncEngine
        (StateChangeRequest.mk WorkerState.PAUSED (some true))
        (Worker.mk WorkerState.RUNNING none [] 0)).calls =
       (if (StateChangeRequest.mk WorkerState.PAUSED (some true)).new_state
            = WorkerState.PAUSED
        then [EngineCall.pause (some true)] else [EngineCall.resume])) :=
  ⟨by decide,
   set_state_accepts_allowed EngineOps.syncEngine
     (StateChangeRequest.mk WorkerState.PAUSED (some true))
     (Worker.mk WorkerState.RUNNING none [] 0) (by decide)⟩

/-- C4: for every `PUT /worker/state` request, accepted or rejected, the
response body is the worker's WorkerState as read after attempting the
transition. -/
theorem set_state_body_is_state_after (ops : EngineOps)
    (req : StateChangeRequest) (w : Worker) :
    (set_state ops req w).body = (set_state ops req w).worker.state := by
  rcases req with ⟨ns, d⟩
  rcases w with ⟨s, a, t, n⟩
  cases s <;> cases ns <;>
    simp [set_state, inAllowedKeys, allowedTargets, ALLOWED_TRANSITIONS]

/-- C8: `get_state` is a pure read: it does not modify the worker, and two
consecutive calls with no intervening events return the same
WorkerState. -/
theorem get_state_idempotent (w : Worker) :
    (get_state w).2 = w ∧
    (get_state (get_state w).2).1 = (get_state w).1 :=
  ⟨rfl, rfl⟩

/-- C3: `update_task` responds 409 Conflict whenever the active task
exists and is not complete, in which case `begin_task` is never invoked
and the worker is unchanged; otherwise, when the request carries a
`task_id`, `begin_task` is invoked on exactly that id. -/
theorem update_task_conflict_spec
    (beginImpl : String → Worker → Worker) (task : WorkerTask)
    (w : Worker) :
    (conflictActive w = true →
      (update_task beginImpl task w).status = 409 ∧
      (update_task beginImpl task w).worker = w ∧
      (update_task beginImpl task w).calls = []) ∧
    (conflictActive w = false →
      ∀ tid, task.task_id = some tid →
        (update_task beginImpl task w).status = 200 ∧
        (update_task beginImpl task w).calls = [EngineCall.begin_task tid]) := by
  constructor
  · intro h
    simp_all [update_task, conflictActive]
  · intro h tid htid
    simp_all [update_task, conflictActive]

/-- Witness for C3: a worker with an incomplete active task yields 409
with no `begin_task` call; an idle worker with a requested `task_id`
yields one `begin_task` call on that id. -/
theorem update_task_conflict_spec_witness :
    ((update_task (fun _ w => w) (WorkerTask.mk (some "t1"))
        (Worker.mk WorkerState.RUNNING
          (some (TrackableTask.mk "t0" (RunPlan.mk "count" []) false [])) []
          1)).status = 409 ∧
     (update_task (fun _ w => w) (WorkerTask.mk (some "t1"))
        (Worker.mk WorkerState.RUNNING
          (some (TrackableTask.mk "t0" (RunPlan.mk "count" []) false [])) []
          1)).worker =
       Worker.mk WorkerState.RUNNING
         (some (TrackableTask.mk "t0" (RunPlan.mk "count" []) false [])) [] 1 ∧
     (update_task (fun _ w => w) (WorkerTask.mk (some "t1"))
        (Worker.mk WorkerState.RUNNING
          (some (TrackableTask.mk "t0" (RunPlan.mk "count" []) false [])) []
          1)).calls = []) ∧
    ((update_task (fun _ w => w) (WorkerTask.mk (some "t1"))
        (Worker.mk WorkerState.IDLE none [] 0)).status = 200 ∧
     (update_task (fun _ w => w) (WorkerTask.mk (some "t1"))
        (Worker.mk WorkerState.IDLE none [] 0)).calls =
       [EngineCall.begin_task "t1"]) :=
  ⟨(update_task_conflict_spec (fun _ w => w) (WorkerTask.mk (some "t1"))
      (Worker.mk WorkerState.RUNNING
        (some (TrackableTask.mk "t0" (RunPlan.mk "count" []) false [])) []
        1)).1 (by decide),
   (update_task_conflict_spec (fun _ w => w) (WorkerTask.mk (some "t1"))
      (Worker.mk WorkerState.IDLE none [] 0)).2 (by decide) "t1" rfl⟩

/-- C10: every `PUT /worker/task` request that is not rejected with 409
gets the request's WorkerTask echoed back unchanged as the response body;
when additionally the request's `task_id` is null, the endpoint succeeds
(200) without invoking `begin_task` and without touching the worker. -/
theorem update_task_echoes_request
    (beginImpl : String → Worker → Worker) (task : WorkerTask)
    (w : Worker) (h : conflictActive w = false) :
    (update_task beginImpl task w).body = some task ∧
    (task.task_id = none →
      (update_task beginImpl task w).status = 200 ∧
      (update_task beginImpl task w).calls = [] ∧
      (update_task beginImpl task w).worker = w) := by
  rcases task with ⟨tid⟩
  cases tid <;> simp_all [update_task, conflictActive]

/-- Witness for C10: an idle worker and a request with `task_id = null`. -/
theorem update_task_echoes_request_witness :
    conflictActive (Worker.mk WorkerState.IDLE none [] 0) = false ∧
    ((update_task (fun _ w => w) (WorkerTask.mk none)
        (Worker.mk WorkerState.IDLE none [] 0)).body =
          some (WorkerTask.mk none) ∧
     ((WorkerTask.mk none).task_id = none →
       (update_task (fun _ w => w) (WorkerTask.mk none)
          (Worker.mk WorkerState.IDLE none [] 0)).status = 200 ∧
       (update_task (fun _ w => w) (WorkerTask.mk none)
          (Worker.mk WorkerState.IDLE none [] 0)).calls = [] ∧
       (update_task (fun _ w => w) (WorkerTask.mk none)
          (Worker.mk WorkerState.IDLE none [] 0)).worker =
         Worker.mk WorkerState.IDLE none [] 0)) :=
  ⟨by decide,
   update_task_echoes_request (fun _ w => w) (WorkerTask.mk none)
     (Worker.mk WorkerState.IDLE none [] 0) (by decide)⟩

/-- C6: `submit_task` always responds 201, its body carries the freshly
generated task_id (the one the worker's submission returned, now stored in
the registry with `is_complete=false`), and the `Location` header is the
request URL extended with that task_id. -/
theorem submit_task_spec (request_url : String) (task : RunPlan)
    (w : Worker) :
    (submit_task request_url task w).status = 201 ∧
    (submit_task request_url task w).body_task_id = (w.submit_task task).fst ∧
    (submit_task request_url task w).location =
      request_url ++ "/" ++ (submit_task request_url task w).body_task_id ∧
    ((submit_task request_url task w).body_task_id,
      TrackableTask.mk (submit_task request_url task w).body_task_id task
        false []) ∈ (submit_task request_url task w).worker.tasks := by
  refine ⟨rfl, rfl, rfl, ?_⟩
  simp [submit_task, Worker.submit_task]

/-- Helper: a dict lookup misses iff the name is not among the keys. -/
theorem dictGet_eq_none_of_not_mem {α : Type} (m : List (String × α))
    (name : String) (h : name ∉ m.map Prod.fst) : dictGet m name = none := by
  unfold dictGet
  rw [Option.map_eq_none', List.find?_eq_none]
  intro p hp hbeq
  exact h (List.mem_map.mpr ⟨p, hp, by simpa using hbeq⟩)

/-- Helper: a dict lookup on a present key returns an entry stored under
that key. -/
theorem dictGet_mem {α : Type} (m : List (String × α)) (name : String)
    (h : name ∈ m.map Prod.fst) :
    ∃ a, dictGet m name = some a ∧ (name, a) ∈ m := by
  induction m with
  | nil => simp at h
  | cons hd tl ih =>
      by_cases hn : hd.fst = name
      · refine ⟨hd.snd, ?_, ?_⟩
        · simp [dictGet, List.find?, hn]
        · rw [← hn]
          exact List.mem_cons_self _ _
      · by_cases hb : (hd.fst == name) = true
        · exact absurd (by simpa using hb) hn
        · have hmem : name ∈ tl.map Prod.fst := by
            rcases List.mem_map.mp h with ⟨p, hp, hpe⟩
            rcases List.mem_cons.mp hp with hph | hpt
            · exact absurd (hph ▸ hpe) hn
            · exact List.mem_map.mpr ⟨p, hpt, hpe⟩
          rcases ih hmem with ⟨a, ha, hma⟩
          refine ⟨a, ?_, List.mem_cons_of_mem _ hma⟩
          simpa [dictGet, List.find?, hb] using ha

/-- C7: every lookup of an unknown identifier — `GET /tasks/{task_id}`,
`GET /plans/{name}`, `GET /devices/{name}` — yields a 404 not-found
outcome (an `Except.error`, never a crash); for a known identifier the
corresponding stored record is returned. -/
theorem lookup_unknown_is_404 (w : Worker) (plans : List (String × Plan))
    (devices : List (String × Device)) (tid pname dname : String) :
    (tid ∉ w.tasks.map Prod.fst → get_task tid w = Except.error 404) ∧
    (tid ∈ w.tasks.map Prod.fst →
      ∃ t, (tid, t) ∈ w.tasks ∧ get_task tid w = Except.ok t) ∧
    (pname ∉ plans.map Prod.fst →
      get_plan_by_name plans pname = Except.error 404) ∧
    (pname ∈ plans.map Prod.fst →
      ∃ p, (pname, p) ∈ plans ∧
        get_plan_by_name plans pname = Except.ok (PlanModel.from_plan p)) ∧
    (dname ∉ devices.map Prod.fst →
      get_device_by_name devices dname = Except.error 404) ∧
    (dname ∈ devices.map Prod.fst →
      ∃ d, (dname, d) ∈ devices ∧
        get_device_by_name devices dname =
          Except.ok (DeviceModel.from_device d)) := by
  have htask : w.get_pending_task tid = dictGet w.tasks tid := rfl
  refine ⟨?_, ?_, ?_, ?_, ?_, ?_⟩
  · intro h
    simp [get_task, htask, dictGet_eq_none_of_not_mem w.tasks tid h]
  · intro h
    rcases dictGet_mem w.tasks tid h with ⟨t, ht, hmem⟩
    exact ⟨t, hmem, by simp [get_task, htask, ht]⟩
  · intro h
    simp [get_plan_by_name, dictGet_eq_none_of_not_mem plans pname h]
  · intro h
    rcases dictGet_mem plans pname h with ⟨p, hp, hmem⟩
    exact ⟨p, hmem, by simp [get_plan_by_name, hp]⟩
  · intro h
    simp [get_device_by_name, dictGet_eq_none_of_not_mem devices dname h]
  · intro h
    rcases dictGet_mem devices dname h with ⟨d, hd, hmem⟩
    exact ⟨d, hmem, by simp [get_device_by_name, hd]⟩

/-- Witness for C7: one stored task, plan and device; the unknown ids get
404, the known ids return the stored records. -/
theorem lookup_unknown_is_404_witness :
    get_task "nope" (Worker.mk WorkerState.IDLE none
        [("t0", TrackableTask.mk "t0" (RunPlan.mk "count" []) false [])] 1) =
      Except.error 404 ∧
    (∃ t, ("t0", t) ∈
        [("t0", TrackableTask.mk "t0" (RunPlan.mk "count" []) false [])] ∧
      get_task "t0" (Worker.mk WorkerState.IDLE none
        [("t0", TrackableTask.mk "t0" (RunPlan.mk "count" []) false [])] 1) =
        Except.ok t) ∧
    get_plan_by_name [("my-plan", Plan.mk "my-plan")] "missing-plan" =
      Except.error 404 ∧
    (∃ p, ("my-plan", p) ∈ [("my-plan", Plan.mk "my-plan")] ∧
      get_plan_by_name [("my-plan", Plan.mk "my-plan")] "my-plan" =
        Except.ok (PlanModel.from_plan p)) ∧
    get_device_by_name [("my-device", Device.mk "my-device")]
      "missing-device" = Except.error 404 ∧
    (∃ d, ("my-device", d) ∈ [("my-device", Device.mk "my-device")] ∧
      get_device_by_name [("my-device", Device.mk "my-device")] "my-device" =
        Except.ok (DeviceModel.from_device d)) :=
  ⟨(lookup_unknown_is_404
      (Worker.mk WorkerState.IDLE none
        [("t0", TrackableTask.mk "t0" (RunPlan.mk "count" []) false [])] 1)
      [] [] "nope" "x" "x").1 (by decide),
   (lookup_unknown_is_404
      (Worker.mk WorkerState.IDLE none
        [("t0", TrackableTask.mk "t0" (RunPlan.mk "count" []) false [])] 1)
      [] [] "t0" "x" "x").2.1 (by decide),
   (lookup_unknown_is_404
      (Worker.mk WorkerState.IDLE none [] 0)
      [("my-plan", Plan.mk "my-plan")] [] "x" "missing-plan" "x").2.2.1
     (by decide),
   (lookup_unknown_is_404
      (Worker.mk WorkerState.IDLE none [] 0)
      [("my-plan", Plan.mk "my-plan")] [] "x" "my-plan" "x").2.2.2.1
     (by decide),
   (lookup_unknown_is_404
      (Worker.mk WorkerState.IDLE none [] 0) []
      [("my-device", Device.mk "my-device")] "x" "x"
      "missing-device").2.2.2.2.1 (by decide),
   (lookup_unknown_is_404
      (Worker.mk WorkerState.IDLE none [] 0) []
      [("my-device", Device.mk "my-device")] "x" "x"
      "my-device").2.2.2.2.2 (by decide)⟩

/-- C9: `check_connection` runs the wrapped command exactly once (the
resulting state is that of a single application, never a retry); a
`ConnectionError` is swallowed and reported by printing a message; any
other outcome passes through untouched. -/
theorem check_connection_spec (σ : Type)
    (func : σ → σ × List String × Option PyError) (s : σ) :
    (check_connection func s).state = (func s).fst ∧
    ((func s).snd.snd = some PyError.connectionError →
      (check_connection func s).error = none ∧
      (check_connection func s).printed =
        (func s).snd.fst ++ [connectionFailedMsg]) ∧
    ((func s).snd.snd ≠ some PyError.connectionError →
      (check_connection func s).error = (func s).snd.snd ∧
      (check_connection func s).printed = (func s).snd.fst) := by
  unfold check_connection
  rcases hres : (func s).snd.snd with _ | e
  · simp [hres]
  · cases e
    · simp [hres]
    · simp [hres]

/-- Witness for C9: a counting command that raises `ConnectionError`.  The
counter lands on 1 — one invocation — with the error swallowed and the
message printed; a command raising another error passes it through. -/
theorem check_connection_spec_witness :
    (check_connection
      (fun n => (n + 1, [], some PyError.connectionError)) 0).state = 1 ∧
    ((check_connection
        (fun n => (n + 1, [], some PyError.connectionError)) 0).error =
      none ∧
     (check_connection
        (fun n => (n + 1, [], some PyError.connectionError)) 0).printed =
      [] ++ [connectionFailedMsg]) ∧
    ((check_connection
        (fun n => (n + 1, [], some (PyError.other "boom"))) 0).error =
      some (PyError.other "boom") ∧
     (check_connection
        (fun n => (n + 1, [], some (PyError.other "boom"))) 0).printed =
      []) :=
  ⟨(check_connection_spec Nat
      (fun n => (n + 1, [], some PyError.connectionError)) 0).1,
   (check_connection_spec Nat
      (fun n => (n + 1, [], some PyError.connectionError)) 0).2.1 rfl,
   (check_connection_spec Nat
      (fun n => (n + 1, [], some (PyError.other "boom"))) 0).2.2
     (by simp)⟩

/-- C5 counterexample: in the actual trace of the CLI `run` command the
printing step comes strictly before the blocking wait for the terminal
message (the command prints the begin response and only afterwards
blocks), refuting the claimed "block until the terminal message arrives,
and print the result" ordering at a concrete invocation. -/
theorem run_plan_prints_before_blocking :
    eventIdx isPrint (run_plan "count" "detectors" "tid0" 200) <
      eventIdx isWait (run_plan "count" "detectors" "tid0" 200) ∧
    ¬ (eventIdx isWait (run_plan "count" "detectors" "tid0" 200) <
        eventIdx isPrint (run_plan "count" "detectors" "tid0" 200)) ∧
    CliEvent.waitForComplete ∈ run_plan "count" "detectors" "tid0" 200 := by
  refine ⟨by decide, by decide, ?_⟩
  simp [run_plan]

/-- C5 (amended): the CLI `run` command performs its steps in this order:
create the task via the submission interface, subscribe to that task's
completion topic, signal begin for the task, print the begin response
status, and block until the terminal message arrives; in particular the
subscription is established before begin is signalled. -/
theorem run_plan_order (name parameters task_id : String)
    (started_status : Nat) :
    eventIdx isCreate (run_plan name parameters task_id started_status)
      = 0 ∧
    eventIdx isSubscribe (run_plan name parameters task_id started_status)
      = 1 ∧
    eventIdx isBegin (run_plan name parameters task_id started_status)
      = 2 ∧
    eventIdx isPrint (run_plan name parameters task_id started_status)
      = 3 ∧
    eventIdx isWait (run_plan name parameters task_id started_status)
      = 4 ∧
    CliEvent.subscribe task_id ∈
      run_plan name parameters task_id started_status ∧
    CliEvent.signalBegin task_id ∈
      run_plan name parameters task_id started_status ∧
    CliEvent.printLine ("Response returned with " ++ toString started_status)
      ∈ run_plan name parameters task_id started_status := by
  refine ⟨rfl, rfl, rfl, rfl, rfl, ?_, ?_, ?_⟩ <;> simp [run_plan]
